import Mathlib

/-!
Shallow embedding of the third-eye-project Angular application, covering the
pieces the specification's claims refer to: the dashboard widget service
(`dashboard.service.ts`), the analytics and conversations query pages, the
chatbot component, the dashboard-widget chart bar renderer, and the MCP
server auto-selection heuristic described by the spec.

JavaScript values that flow through JSON.parse / JSON.stringify are modelled
by the inductive `JVal`; browser localStorage is modelled as an association
list from string keys to parsed JSON trees (`Storage`), with
`JSON.stringify` / `JSON.parse` modelled as identity on JSON trees, which is
what ECMA-262 guarantees for JSON-safe data.  Machine numbers are modelled as
rationals.  Instants (JS `Date` values) are modelled by their epoch
milliseconds as integers.
-/

/-- Model of a parsed JSON value (the tree JSON.parse returns and
JSON.stringify consumes).  The constructor `isoDate` models the ISO-8601
string that `Date.prototype.toISOString` (invoked by JSON.stringify through
`Date.prototype.toJSON`) produces for an instant, identified by the instant
(epoch milliseconds) it denotes: `toISOString` is injective on the JS date
range and `new Date(iso)` recovers the same instant, which is the only
property the code under verification relies on. -/
inductive JVal where
  | null : JVal
  | bool (b : Bool) : JVal
  | num (q : ℚ) : JVal
  | str (s : String) : JVal
  | isoDate (t : Int) : JVal
  | arr (elems : List JVal) : JVal
  | obj (fields : List (String × JVal)) : JVal

/-- Property access `v[k]` on a parsed JSON value: `some` for a present
property, `none` for JavaScript `undefined`. -/
def JVal.getField : JVal → String → Option JVal
  | .obj fs, k => (fs.find? (fun p => p.1 == k)).map (·.2)
  | _, _ => none

/-- JavaScript truthiness of a parsed JSON value. -/
def JVal.truthy : JVal → Bool
  | .null => false
  | .bool b => b
  | .num q => decide (q ≠ 0)
  | .str s => decide (s ≠ "")
  | .isoDate _ => true
  | .arr _ => true
  | .obj _ => true

/-- Browser localStorage, modelled as an association list from keys to the
parsed JSON tree of the stored string. -/
abbrev Storage := List (String × JVal)

/-- localStorage.getItem followed by JSON.parse. -/
def Storage.getItem (s : Storage) (k : String) : Option JVal :=
  (s.find? (fun p => p.1 == k)).map (·.2)

/-- JSON.stringify followed by localStorage.setItem: overwrites the value
stored under `k`. -/
def Storage.setItem (s : Storage) (k : String) (v : JVal) : Storage :=
  (k, v) :: s.filter (fun p => p.1 != k)

/-- JavaScript `a || b` for strings (`a` if non-empty, else `b`). -/
def stringOr (a b : String) : String := if a = "" then b else a

/-- Substring occurrence on character lists (helper for `containsStr`). -/
def listContains (pat : List Char) : List Char → Bool
  | [] => pat.isEmpty
  | c :: rest => pat.isPrefixOf (c :: rest) || listContains pat rest

/-- JavaScript `s.includes(pat)` substring test. -/
def containsStr (s pat : String) : Bool := listContains pat.toList s.toList

/-- Drop leading whitespace characters. -/
def dropLeadingWs : List Char → List Char
  | [] => []
  | c :: rest => if c.isWhitespace then dropLeadingWs rest else c :: rest

/-- JavaScript `s.trim()`: strip whitespace from both ends (modelled over the
ASCII whitespace class). -/
def jsTrim (s : String) : String :=
  String.mk ((dropLeadingWs (dropLeadingWs s.toList).reverse).reverse)

/-! ## Dashboard service (src/app/services/dashboard.service.ts) -/

/-- A column descriptor of a query result's `raw_data`. -/
structure Column where
  friendly_name : String
  type : String
  name : String

/-- A result row: a JS object, modelled as an association list. -/
abbrev Row := List (String × JVal)

/-- Property access `row[name]` on a result row (`none` = `undefined`). -/
def rowLookup (r : Row) (k : String) : Option JVal :=
  (r.find? (fun p => p.1 == k)).map (·.2)

/-- The `raw_data` payload of a `QueryResult`. -/
structure RawData where
  columns : List Column
  rows : List Row

/-- The `QueryResult` interface of dashboard.service.ts.  `raw_data` is
declared non-optional there but the service guards on its falsiness, so it is
modelled as an `Option`. -/
structure QueryResult where
  success : Bool
  prompt : String
  analysis : JVal
  service : String
  action : String
  result : JVal
  raw_data : Option RawData
  answer : String
  llm_intent : Option String
  sql : Option String
  explanation : Option String
  row_count : Option ℚ
  data_source_id : Option ℚ
  error : Option String
  timestamp : Option String

/-- The four presentation modes of a dashboard widget. -/
inductive WidgetType where
  | table | metric | chart | text
deriving DecidableEq

/-- A formatted table column (`formatWidgetData`, `table` branch). -/
structure TableColumn where
  name : String
  label : String
  type : String

/-- A chart dataset produced by `formatChartData`. -/
structure ChartDataset where
  label : String
  data : List (Option JVal)
  type : String

/-- The `data` payload of a widget, by widget type (shape produced by
`formatWidgetData`). -/
inductive WidgetData where
  | metric (value : Option JVal) (label : String) (type : String)
  | table (columns : List TableColumn) (rows : List Row)
  | chart (labels : List (Option JVal)) (datasets : List ChartDataset) (chartType : String)
  | text (value : String)

/-- The optional `metadata` record of a `DashboardWidget`. -/
structure WidgetMetadata where
  prompt : Option String
  sql : Option String
  explanation : Option String
  answer : Option String
  timestamp : Option String
  dataSourceId : Option ℚ

/-- The optional `position` record of a `DashboardWidget`. -/
structure WidgetPosition where
  x : ℚ
  y : ℚ
  width : ℚ
  height : ℚ

/-- The `DashboardWidget` interface. -/
structure DashboardWidget where
  id : String
  type : WidgetType
  title : String
  description : Option String
  data : WidgetData
  metadata : Option WidgetMetadata
  position : Option WidgetPosition

/-- The `hasNumericColumn` check of `determineWidgetType`. -/
def hasNumericColumnB (cols : List Column) : Bool :=
  cols.any (fun col => col.type == "integer" || col.type == "float" || col.type == "number")

/-- The `hasTimeColumn` check of `determineWidgetType`. -/
def hasTimeColumnB (cols : List Column) : Bool :=
  cols.any (fun col => col.type == "date" || col.type == "datetime"
    || containsStr col.name.toLower "date" || containsStr col.name.toLower "time")

/-- `DashboardService.determineWidgetType`, acting on the query result's
`raw_data`. -/
def determineWidgetType (rd : RawData) : WidgetType :=
  if rd.rows.length = 1 ∧ rd.columns.length = 1 then .metric
  else if 1 < rd.rows.length ∨ 1 < rd.columns.length then
    if hasTimeColumnB rd.columns && hasNumericColumnB rd.columns
        && decide (1 < rd.rows.length) && decide (rd.rows.length ≤ 50) then .chart
    else .table
  else .text

/-- `DashboardService.generateWidgetTitle`: capitalize the prompt and clip it
to 50 characters, falling back to "Query Result" for an empty prompt. -/
def generateWidgetTitle (qr : QueryResult) : String :=
  match qr.prompt.toList with
  | [] => "Query Result"
  | c :: rest =>
    let title := String.mk (c.toUpper :: rest)
    if 50 < title.length then (title.take 50) ++ "..." else title

/-- `DashboardService.formatChartData`.  Returns `none` exactly when the code
would dereference `undefined` (no columns at all, so that both
`columns.find(...)` and the `columns[0]` fallback are `undefined`). -/
def formatChartData (columns : List Column) (rows : List Row) : Option WidgetData :=
  match (columns.find? (fun col =>
      col.type == "date" || col.type == "datetime" || col.type == "string")).orElse
      (fun _ => columns.head?) with
  | none => none
  | some labelColumn =>
    let valueColumns := columns.filter (fun col =>
      col.type == "integer" || col.type == "float" || col.type == "number")
    let labels := rows.map (fun row => rowLookup row labelColumn.name)
    let datasets := valueColumns.map (fun col =>
      { label := stringOr col.friendly_name col.name,
        data := rows.map (fun row => rowLookup row col.name),
        type := col.type : ChartDataset })
    some (.chart labels datasets "bar")

/-- `DashboardService.formatWidgetData`.  Returns `none` exactly when the
code would dereference `undefined` (`columns[0]` or `rows[0]` missing in the
`metric` branch, or no columns in the `chart` branch). -/
def formatWidgetData (qr : QueryResult) (rd : RawData) : WidgetType → Option WidgetData
  | .metric =>
    match rd.columns.head?, rd.rows.head? with
    | some col, some row =>
      some (.metric (rowLookup row col.name) (stringOr col.friendly_name col.name) col.type)
    | _, _ => none
  | .table =>
    some (.table (rd.columns.map (fun col =>
      { name := col.name, label := stringOr col.friendly_name col.name, type := col.type }))
      rd.rows)
  | .chart => formatChartData rd.columns rd.rows
  | .text => some (.text (stringOr qr.answer "No data available"))

/-- `DashboardService.generateWidgetFromQueryResult`.  `now` and `rand` model
the ambient `Date.now()` and `Math.random()` fragments of the widget id.  The
`Except.error` result models a runtime `undefined` dereference; `.ok none`
models the `return null` on unsuccessful results or missing `raw_data`. -/
def generateWidgetFromQueryResult (now : Int) (rand : String) (qr : QueryResult) :
    Except Unit (Option DashboardWidget) :=
  if qr.success = false then .ok none
  else match qr.raw_data with
  | none => .ok none
  | some rd =>
    let widgetType := determineWidgetType rd
    match formatWidgetData qr rd widgetType with
    | none => .error ()
    | some data =>
      .ok (some {
        id := "widget-" ++ toString now ++ "-" ++ rand,
        type := widgetType,
        title := generateWidgetTitle qr,
        description := some qr.prompt,
        data := data,
        metadata := some {
          prompt := some qr.prompt, sql := qr.sql, explanation := qr.explanation,
          answer := some qr.answer, timestamp := qr.timestamp,
          dataSourceId := qr.data_source_id },
        position := none })

/-! ### JSON serialization of widgets (saveWidgetsToStorage) -/

/-- A JSON object field that is omitted when the JS value is `undefined`
(JSON.stringify drops `undefined`-valued properties). -/
def optField (k : String) : Option JVal → List (String × JVal)
  | some v => [(k, v)]
  | none => []

/-- An `undefined` element inside a JSON array serializes as `null`. -/
def encodeOptJVal : Option JVal → JVal
  | some v => v
  | none => .null

def encodeTableColumn (c : TableColumn) : JVal :=
  .obj [("name", .str c.name), ("label", .str c.label), ("type", .str c.type)]

def encodeDataset (d : ChartDataset) : JVal :=
  .obj [("label", .str d.label), ("data", .arr (d.data.map encodeOptJVal)),
        ("type", .str d.type)]

def encodeWidgetData : WidgetData → JVal
  | .metric value label ty =>
    .obj (optField "value" value ++ [("label", .str label), ("type", .str ty)])
  | .table cols rows =>
    .obj [("columns", .arr (cols.map encodeTableColumn)),
          ("rows", .arr (rows.map .obj))]
  | .chart labels datasets chartType =>
    .obj [("labels", .arr (labels.map encodeOptJVal)),
          ("datasets", .arr (datasets.map encodeDataset)),
          ("chartType", .str chartType)]
  | .text s => .obj [("text", .str s)]

def widgetTypeStr : WidgetType → String
  | .table => "table"
  | .metric => "metric"
  | .chart => "chart"
  | .text => "text"

def encodeMetadata (m : WidgetMetadata) : JVal :=
  .obj (optField "prompt" (m.prompt.map .str) ++ optField "sql" (m.sql.map .str)
    ++ optField "explanation" (m.explanation.map .str)
    ++ optField "answer" (m.answer.map .str)
    ++ optField "timestamp" (m.timestamp.map .str)
    ++ optField "dataSourceId" (m.dataSourceId.map .num))

def encodePosition (p : WidgetPosition) : JVal :=
  .obj [("x", .num p.x), ("y", .num p.y), ("width", .num p.width),
        ("height", .num p.height)]

/-- JSON serialization of one `DashboardWidget`. -/
def encodeWidget (w : DashboardWidget) : JVal :=
  .obj ([("id", .str w.id), ("type", .str (widgetTypeStr w.type)),
         ("title", .str w.title)]
    ++ optField "description" (w.description.map .str)
    ++ [("data", encodeWidgetData w.data)]
    ++ optField "metadata" (w.metadata.map encodeMetadata)
    ++ optField "position" (w.position.map encodePosition))

/-- `JSON.stringify(this.widgets())`: serialization of the widget list. -/
def encodeWidgets (ws : List DashboardWidget) : JVal :=
  .arr (ws.map encodeWidget)

/-! ### DashboardService state and mutating operations -/

/-- The state of the `DashboardService` (its widget-list signal) together
with the browser localStorage it persists into. -/
structure DashboardServiceState where
  widgets : List DashboardWidget
  storage : Storage

/-- The localStorage key used by `saveWidgetsToStorage`. -/
def widgetsStorageKey : String := "third-eye-dashboard-widgets"

/-- `DashboardService.saveWidgetsToStorage`: overwrite the stored value with
the serialization of the full current list. -/
def saveWidgetsToStorage (s : DashboardServiceState) : DashboardServiceState :=
  { s with storage := s.storage.setItem widgetsStorageKey (encodeWidgets s.widgets) }

/-- `DashboardService.addWidget`. -/
def addWidget (w : DashboardWidget) (s : DashboardServiceState) : DashboardServiceState :=
  saveWidgetsToStorage { s with widgets := s.widgets ++ [w] }

/-- `DashboardService.removeWidget`. -/
def removeWidget (widgetId : String) (s : DashboardServiceState) : DashboardServiceState :=
  saveWidgetsToStorage { s with widgets := s.widgets.filter (fun w => w.id != widgetId) }

/-- `Partial<DashboardWidget>`: the update record of `updateWidget`, with
every field optional. -/
structure WidgetUpdates where
  id : Option String
  type : Option WidgetType
  title : Option String
  description : Option String
  data : Option WidgetData
  metadata : Option WidgetMetadata
  position : Option WidgetPosition

/-- The object spread `{ ...w, ...updates }`: fields present in `updates`
override those of `w`. -/
def mergeWidget (w : DashboardWidget) (u : WidgetUpdates) : DashboardWidget :=
  { id := u.id.getD w.id,
    type := u.type.getD w.type,
    title := u.title.getD w.title,
    description := (u.description.map some).getD w.description,
    data := u.data.getD w.data,
    metadata := (u.metadata.map some).getD w.metadata,
    position := (u.position.map some).getD w.position }

/-- `DashboardService.updateWidget`. -/
def updateWidget (widgetId : String) (updates : WidgetUpdates)
    (s : DashboardServiceState) : DashboardServiceState :=
  saveWidgetsToStorage
    { s with widgets := s.widgets.map (fun w =>
        if w.id == widgetId then mergeWidget w updates else w) }

/-- `DashboardService.clearAllWidgets`. -/
def clearAllWidgets (s : DashboardServiceState) : DashboardServiceState :=
  saveWidgetsToStorage { s with widgets := [] }

/-! ## MCP server auto-selection (backend/app.py, modelled from the spec) -/

/-- The three MCP servers the auto-selection chooses between. -/
inductive MCPServer where
  | filesystem | database | webScraper
deriving DecidableEq

/-- Modelled from the spec: the backend function `auto_select_server` in
`backend/app.py` is not part of the repository snapshot (only its
documentation and call sites are).  Per the spec, selection "scores a message
against three fixed keyword lists and picks the max"; the keyword lists are
the ones the repository's MCP auto-selection guide documents for the
filesystem, database and web-scraper categories. -/
def mcpKeywords : MCPServer → List String
  | .filesystem => ["file", "files", "read", "write", "directory", "folder",
      "list files", "show files"]
  | .database => ["sql", "query", "database", "table", "schema", "select",
      "insert", "update"]
  | .webScraper => ["url", "web", "scrape", "html", "fetch", "website",
      "webpage", "extract data"]

/-- Modelled from the spec: the match count of a message against one server's
keyword list (the number of keywords occurring in the lowercased message). -/
def mcpScore (message : String) (s : MCPServer) : Nat :=
  ((mcpKeywords s).filter (fun k => containsStr message.toLower k)).length

/-- Modelled from the spec: `auto_select_server` picks the server with the
maximum match count, defaulting to the filesystem server (as the repository's
auto-selection guide documents) when no keyword matches. -/
def autoSelectServer (message : String) : MCPServer :=
  let f := mcpScore message .filesystem
  let d := mcpScore message .database
  let w := mcpScore message .webScraper
  if d ≤ f ∧ w ≤ f then .filesystem
  else if w ≤ d then .database
  else .webScraper

/-! ## Shared query-history pieces (analytics and conversations pages) -/

/-- The status literal type of a history entry. -/
inductive QStatus where
  | success | error | loading
deriving DecidableEq

def qstatusStr : QStatus → String
  | .success => "success"
  | .error => "error"
  | .loading => "loading"

def qstatusOfStr (s : String) : Option QStatus :=
  if s = "success" then some .success
  else if s = "error" then some .error
  else if s = "loading" then some .loading
  else none

/-! ## Analytics page (src/app/pages/analytics/analytics.component.ts) -/

namespace Analytics

/-- The `QueryResponse` interface: one analytics history entry.  `timestamp`
is the instant of its `Date`, `processingTime` its optional millisecond
count. -/
structure QueryResponse where
  id : String
  query : String
  response : JVal
  timestamp : Int
  status : QStatus
  processingTime : Option ℚ

/-- JSON serialization of one history entry, as `JSON.stringify` produces it:
fields in insertion order, the `Date` through `toISOString`, the optional
`processingTime` omitted when `undefined`. -/
def encodeEntry (e : QueryResponse) : JVal :=
  .obj ([("id", .str e.id), ("query", .str e.query), ("response", e.response),
         ("timestamp", .isoDate e.timestamp),
         ("status", .str (qstatusStr e.status))]
    ++ optField "processingTime" (e.processingTime.map .num))

/-- The per-item load step `{ ...item, timestamp: new Date(item.timestamp) }`
on a parsed entry.  Returns `none` on a tree that does not have the shape
`saveQueryHistory` writes (the source would produce a garbage entry there;
the shape is always the saved one in the round-trip this file verifies). -/
def decodeEntry (v : JVal) : Option QueryResponse :=
  match v.getField "id", v.getField "query", v.getField "response",
      v.getField "timestamp", v.getField "status" with
  | some (.str i), some (.str q), some resp, some (.isoDate t), some (.str st) =>
    match qstatusOfStr st with
    | some status =>
      some { id := i, query := q, response := resp, timestamp := t,
             status := status,
             processingTime :=
               match v.getField "processingTime" with
               | some (.num p) => some p
               | _ => none }
    | none => none
  | _, _, _, _, _ => none

/-- `history.map(item => ...)` over the parsed array. -/
def decodeList : List JVal → Option (List QueryResponse)
  | [] => some []
  | v :: rest =>
    match decodeEntry v, decodeList rest with
    | some e, some es => some (e :: es)
    | _, _ => none

/-- The localStorage key of the analytics history. -/
def historyKey : String := "thirdEyeAnalyticsHistory"

/-- `AnalyticsComponent.saveQueryHistory`. -/
def saveQueryHistory (storage : Storage) (h : List QueryResponse) : Storage :=
  storage.setItem historyKey (.arr (h.map encodeEntry))

/-- `AnalyticsComponent.loadQueryHistory`; `h0` is the in-memory history left
untouched when nothing valid is stored. -/
def loadQueryHistory (storage : Storage) (h0 : List QueryResponse) :
    List QueryResponse :=
  match storage.getItem historyKey with
  | some (.arr items) => (decodeList items).getD h0
  | some _ => h0
  | none => h0

/-- The component state of the analytics page (form inputs, signals, and the
localStorage it persists into). -/
structure State where
  queryText : String
  outputFormat : String
  includeMetadata : Bool
  prettyFormat : Bool
  isProcessing : Bool
  currentResponse : Option QueryResponse
  queryHistory : List QueryResponse
  storage : Storage

/-- `response.query_id || queryId` (the backend's `query_id` is a string per
the API contract). -/
def idOfResponse (r : JVal) (fallback : String) : String :=
  match r.getField "query_id" with
  | some (.str s) => if s = "" then fallback else s
  | _ => fallback

/-- `response.result || response`. -/
def resultOfResponse (r : JVal) : JVal :=
  match r.getField "result" with
  | some v => if v.truthy then v else r
  | _ => r

/-- The disabled binding of the Execute Query button:
`!queryText.trim() || isProcessing()`. -/
def executeBtnDisabled (st : State) : Bool :=
  decide (jsTrim st.queryText = "") || st.isProcessing

/-- `AnalyticsComponent.executeQuery`, as a step function over the component
state.  `t0` is `Date.now()` at the start, `t1` the instant the request
settles; `outcome` is the settled HTTP promise (`.ok` the parsed response
body, `.error` the `String(error)` rendering of the rejection). -/
def executeQuery (t0 t1 : Int) (st : State) (outcome : Except String JVal) :
    State :=
  if jsTrim st.queryText = "" then st
  else
    let queryId := toString t0
    let loadingResponse : QueryResponse :=
      { id := queryId, query := st.queryText, response := .null,
        timestamp := t0, status := .loading, processingTime := none }
    let st1 := { st with currentResponse := some loadingResponse,
                         isProcessing := true }
    match outcome with
    | .ok r =>
      let successResponse : QueryResponse :=
        { id := idOfResponse r queryId, query := st.queryText,
          response := resultOfResponse r, timestamp := t1, status := .success,
          processingTime := some ((t1 - t0 : Int) : ℚ) }
      let hist := st1.queryHistory ++ [successResponse]
      { st1 with currentResponse := some successResponse,
                 queryHistory := hist,
                 storage := saveQueryHistory st1.storage hist,
                 isProcessing := false }
    | .error err =>
      let errorResponse : QueryResponse :=
        { id := queryId, query := st.queryText,
          response := .obj [("error", .str "Failed to process analytics query"),
                            ("details", .str err)],
          timestamp := t1, status := .error, processingTime := none }
      { st1 with currentResponse := some errorResponse,
                 queryHistory := st1.queryHistory ++ [errorResponse],
                 isProcessing := false }

end Analytics

/-! ## Conversations page (src/app/pages/conversations/conversations.component.ts) -/

namespace Conversations

/-- The `ApiResponse` interface: one conversations history entry. -/
structure ApiResponse where
  id : String
  query : String
  response : String
  timestamp : Int
  status : QStatus
  processingTime : Option ℚ

/-- JSON serialization of one history entry, as `JSON.stringify` produces
it. -/
def encodeEntry (e : ApiResponse) : JVal :=
  .obj ([("id", .str e.id), ("query", .str e.query),
         ("response", .str e.response), ("timestamp", .isoDate e.timestamp),
         ("status", .str (qstatusStr e.status))]
    ++ optField "processingTime" (e.processingTime.map .num))

/-- The per-item load step `{ ...item, timestamp: new Date(item.timestamp) }`
on a parsed entry (`none` on a tree without the saved shape, as in
`Analytics.decodeEntry`). -/
def decodeEntry (v : JVal) : Option ApiResponse :=
  match v.getField "id", v.getField "query", v.getField "response",
      v.getField "timestamp", v.getField "status" with
  | some (.str i), some (.str q), some (.str resp), some (.isoDate t),
      some (.str st) =>
    match qstatusOfStr st with
    | some status =>
      some { id := i, query := q, response := resp, timestamp := t,
             status := status,
             processingTime :=
               match v.getField "processingTime" with
               | some (.num p) => some p
               | _ => none }
    | none => none
  | _, _, _, _, _ => none

/-- `history.map(item => ...)` over the parsed array. -/
def decodeList : List JVal → Option (List ApiResponse)
  | [] => some []
  | v :: rest =>
    match decodeEntry v, decodeList rest with
    | some e, some es => some (e :: es)
    | _, _ => none

/-- The localStorage key of the conversations history. -/
def historyKey : String := "thirdEyeQueryHistory"

/-- `ConversationsComponent.saveQueryHistory`. -/
def saveQueryHistory (storage : Storage) (h : List ApiResponse) : Storage :=
  storage.setItem historyKey (.arr (h.map encodeEntry))

/-- `ConversationsComponent.loadQueryHistory`. -/
def loadQueryHistory (storage : Storage) (h0 : List ApiResponse) :
    List ApiResponse :=
  match storage.getItem historyKey with
  | some (.arr items) => (decodeList items).getD h0
  | some _ => h0
  | none => h0

/-- The component state of the conversations page. -/
structure State where
  searchQuery : String
  selectedAgent : String
  useAdvancedMode : Bool
  includeContext : Bool
  isProcessing : Bool
  currentResponse : Option ApiResponse
  queryHistory : List ApiResponse
  storage : Storage

/-- The disabled binding of the Start Search button:
`!searchQuery.trim() || isProcessing()`. -/
def searchBtnDisabled (st : State) : Bool :=
  decide (jsTrim st.searchQuery = "") || st.isProcessing

/-- `ConversationsComponent.executeSearch`, as a step function over the
component state.  `t0`/`t1` are the instants at start and settlement;
`outcome` is the settled `simulateApiCall` promise (`.ok` its mock-response
string — an inline template constant irrelevant to the claims — or `.error`
a rejection). -/
def executeSearch (t0 t1 : Int) (st : State) (outcome : Except Unit String) :
    State :=
  if jsTrim st.searchQuery = "" then st
  else
    let queryId := toString t0
    let loadingResponse : ApiResponse :=
      { id := queryId, query := st.searchQuery, response := "",
        timestamp := t0, status := .loading, processingTime := none }
    let st1 := { st with currentResponse := some loadingResponse,
                         isProcessing := true }
    match outcome with
    | .ok mockResponse =>
      let successResponse : ApiResponse :=
        { id := queryId, query := st.searchQuery, response := mockResponse,
          timestamp := t1, status := .success,
          processingTime := some ((t1 - t0 : Int) : ℚ) }
      let hist := st1.queryHistory ++ [successResponse]
      { st1 with currentResponse := some successResponse,
                 queryHistory := hist,
                 storage := saveQueryHistory st1.storage hist,
                 isProcessing := false }
    | .error _ =>
      let errorResponse : ApiResponse :=
        { id := queryId, query := st.searchQuery,
          response := "Failed to process query. Please try again.",
          timestamp := t1, status := .error, processingTime := none }
      { st1 with currentResponse := some errorResponse,
                 queryHistory := st1.queryHistory ++ [errorResponse],
                 isProcessing := false }

end Conversations

/-! ## Chatbot component (src/app/components/chatbot/chatbot.component.ts) -/

namespace Chatbot

/-- Chat message roles. -/
inductive Role where
  | user | assistant
deriving DecidableEq

/-- The `ChatMessage` interface. -/
structure ChatMessage where
  role : Role
  content : String
  timestamp : String
  model : Option String

/-- The caught rejection of the message request: `error.error?.detail` and
`error.message`. -/
structure JsError where
  detail : Option String
  message : Option String

/-- The response body of the chat endpoints, restricted to the fields
`sendMessage` reads.  `queryResult` abstracts
`extractQueryResult(response)`: the query-result payload found in the
response, if any. -/
structure McpResponse where
  session_id : Option String
  bedrock_connected : Bool
  bedrock_enhanced : Bool
  ai_message : Option ChatMessage
  mcp_server : Option String
  queryResult : Option QueryResult

/-- The chatbot component state (signals, input binding, and the injected
dashboard service when present). -/
structure State where
  messages : List ChatMessage
  currentMessage : String
  sessionId : Option String
  isGenerating : Bool
  bedrockConnected : Bool
  useMCP : Bool
  useBedrock : Bool
  autoDashboardGeneration : Bool
  dashboardService : Option DashboardServiceState

/-- JavaScript `a || b` where `a` may be `undefined` or an empty (falsy)
string. -/
def jsOr (a : Option String) (b : String) : String :=
  match a with
  | some s => if s = "" then b else s
  | none => b

/-- `error.error?.detail || error.message || 'Unknown error'`. -/
def errorDetail (e : JsError) : String :=
  jsOr e.detail (jsOr e.message "Unknown error")

/-- The disabled binding of the Send button:
`!currentMessage.trim() || isGenerating()`. -/
def sendBtnDisabled (st : State) : Bool :=
  decide (jsTrim st.currentMessage = "") || st.isGenerating

/-- `ChatbotComponent.tryGenerateDashboard`.  `wNow`/`wRand` feed the
generated widget id; `nowIso` is the notification timestamp. -/
def tryGenerateDashboard (wNow : Int) (wRand : String) (nowIso : String)
    (r : McpResponse) (st : State) : State :=
  if !st.autoDashboardGeneration then st
  else match st.dashboardService with
  | none => st
  | some ds =>
    match r.queryResult with
    | none => st
    | some qr =>
      match generateWidgetFromQueryResult wNow wRand qr with
      | .ok (some w) =>
        { st with
          dashboardService := some (addWidget w ds),
          messages := st.messages ++ [{
            role := .assistant,
            content := "📊 Dashboard widget generated! Check the dashboard page to view your visualization.",
            timestamp := nowIso, model := some "system" }] }
      | _ => st

/-- `ChatbotComponent.sendMessage`, as a step function over the component
state.  `nowIso` is the ISO timestamp string of the moment; `outcome` is the
settled HTTP promise. -/
def sendMessage (nowIso : String) (wNow : Int) (wRand : String) (st : State)
    (outcome : Except JsError McpResponse) : State :=
  if jsTrim st.currentMessage = "" || st.isGenerating then st
  else
    let userMessage : ChatMessage :=
      { role := .user, content := st.currentMessage, timestamp := nowIso,
        model := none }
    let st1 := { st with messages := st.messages ++ [userMessage],
                         currentMessage := "", isGenerating := true }
    match outcome with
    | .ok r =>
      let st2 := { st1 with sessionId := r.session_id,
                            bedrockConnected := r.bedrock_connected || r.bedrock_enhanced }
      let st3 :=
        match r.ai_message with
        | some m => { st2 with messages := st2.messages ++ [m] }
        | none => st2
      let st4 := tryGenerateDashboard wNow wRand nowIso r st3
      { st4 with isGenerating := false }
    | .error e =>
      let errorMessage : ChatMessage :=
        { role := .assistant,
          content := "Sorry, I encountered an error: " ++ errorDetail e
            ++ ". Please try again.",
          timestamp := nowIso, model := none }
      { st1 with messages := st1.messages ++ [errorMessage],
                 isGenerating := false }

end Chatbot

/-! ## Dashboard widget component (dashboard-widget.component.ts) -/

namespace WidgetView

/-- A chart dataset as `getBarHeight` consumes it: its `data` values are the
numbers rendered as bars (JS numbers, modelled as rationals). -/
structure BarDataset where
  label : String
  data : List ℚ

/-- `datasets.flatMap(ds => ds.data)`. -/
def allValues (datasets : List BarDataset) : List ℚ :=
  (datasets.map (fun d => d.data)).flatten

/-- `Math.max(...l)`: `none` on the empty spread (JS `-Infinity`). -/
def mathMax : List ℚ → Option ℚ
  | [] => none
  | a :: rest => some (rest.foldl max a)

/-- `Math.min(...l, 0)`. -/
def mathMin0 (l : List ℚ) : ℚ := l.foldl min 0

/-- `DashboardWidgetComponent.getBarHeight`.  `none` models the NaN result on
an empty value spread (where `maxValue` is `-Infinity`). -/
def getBarHeight (value : ℚ) (datasets : List BarDataset) : Option ℚ :=
  let av := allValues datasets
  match mathMax av with
  | none => none
  | some maxValue =>
    let minValue := mathMin0 av
    if maxValue = minValue then some 50
    else some (max 5 ((value - minValue) / (maxValue - minValue) * 90 + 10))

end WidgetView

/-! ## Concrete sample inputs used by witnesses and counterexamples -/

/-- A successful 1-row × 1-column query result (metric-shaped). -/
def qrMetric : QueryResult :=
  { success := true, prompt := "p", analysis := .null, service := "s",
    action := "a", result := .null,
    raw_data := some { columns := [{ friendly_name := "C", type := "integer",
                                     name := "c" }],
                       rows := [[("c", .num 5)]] },
    answer := "a", llm_intent := none, sql := none, explanation := none,
    row_count := none, data_source_id := none, error := none,
    timestamp := none }

/-- The widget `generateWidgetFromQueryResult 0 "r" qrMetric` produces. -/
def wMetric : DashboardWidget :=
  { id := "widget-0-r", type := .metric, title := "P", description := some "p",
    data := .metric (some (.num 5)) "C" "integer",
    metadata := some { prompt := some "p", sql := none, explanation := none,
                       answer := some "a", timestamp := none,
                       dataSourceId := none },
    position := none }

/-- A sample widget. -/
def wA : DashboardWidget :=
  { id := "a", type := .text, title := "t0", description := none,
    data := .text "x", metadata := none, position := none }

/-- A sample update record carrying only a new title. -/
def uA : WidgetUpdates :=
  { id := none, type := none, title := some "T", description := none,
    data := none, metadata := none, position := none }

/-- A sample dashboard service state. -/
def svcA : DashboardServiceState := { widgets := [wA], storage := [] }

/-- A chatbot state with an empty input. -/
def chatEmpty : Chatbot.State :=
  { messages := [], currentMessage := "", sessionId := none,
    isGenerating := false, bedrockConnected := false, useMCP := true,
    useBedrock := false, autoDashboardGeneration := true,
    dashboardService := none }

/-- A chatbot state with a pending message. -/
def chatW : Chatbot.State :=
  { messages := [], currentMessage := "hi", sessionId := none,
    isGenerating := false, bedrockConnected := false, useMCP := true,
    useBedrock := false, autoDashboardGeneration := true,
    dashboardService := none }

/-- An analytics state with an empty query. -/
def anaEmpty : Analytics.State :=
  { queryText := "", outputFormat := "json", includeMetadata := true,
    prettyFormat := true, isProcessing := false, currentResponse := none,
    queryHistory := [], storage := [] }

/-- An analytics state with a non-empty query while a request is already in
flight. -/
def anaBusy : Analytics.State :=
  { queryText := "x", outputFormat := "json", includeMetadata := true,
    prettyFormat := true, isProcessing := true, currentResponse := none,
    queryHistory := [], storage := [] }

/-- An analytics state with a pending query. -/
def anaW : Analytics.State :=
  { queryText := "q", outputFormat := "json", includeMetadata := true,
    prettyFormat := true, isProcessing := false, currentResponse := none,
    queryHistory := [], storage := [] }

/-- A conversations state with a pending query. -/
def convW : Conversations.State :=
  { searchQuery := "s", selectedAgent := "", useAdvancedMode := false,
    includeContext := true, isProcessing := false, currentResponse := none,
    queryHistory := [], storage := [] }

/-- A sample chart dataset list. -/
def barDs : List WidgetView.BarDataset := [{ label := "d", data := [3, 7] }]

/-! ## Helper lemmas -/

theorem Storage.getItem_setItem (s : Storage) (k : String) (v : JVal) :
    (s.setItem k v).getItem k = some v := by
  simp [Storage.getItem, Storage.setItem]

theorem hasNumericColumnB_iff (cols : List Column) :
    hasNumericColumnB cols = true ↔
      ∃ c ∈ cols, c.type = "integer" ∨ c.type = "float" ∨ c.type = "number" := by
  simp [hasNumericColumnB, List.any_eq_true, Bool.or_eq_true, beq_iff_eq,
    or_assoc]

theorem hasTimeColumnB_iff (cols : List Column) :
    hasTimeColumnB cols = true ↔
      ∃ c ∈ cols, c.type = "date" ∨ c.type = "datetime"
        ∨ containsStr c.name.toLower "date" = true
        ∨ containsStr c.name.toLower "time" = true := by
  simp [hasTimeColumnB, List.any_eq_true, Bool.or_eq_true, beq_iff_eq,
    or_assoc]

theorem dwt_metric_iff (rd : RawData) :
    determineWidgetType rd = .metric ↔
      rd.rows.length = 1 ∧ rd.columns.length = 1 := by
  unfold determineWidgetType
  split_ifs with h1 h2 h3
  · exact iff_of_true rfl h1
  · exact iff_of_false (by decide) h1
  · exact iff_of_false (by decide) h1
  · exact iff_of_false (by decide) h1

theorem dwt_chart_iff (rd : RawData) :
    determineWidgetType rd = .chart ↔
      ((1 < rd.rows.length ∨ 1 < rd.columns.length)
        ∧ (∃ c ∈ rd.columns,
            c.type = "integer" ∨ c.type = "float" ∨ c.type = "number")
        ∧ (∃ c ∈ rd.columns, c.type = "date" ∨ c.type = "datetime"
            ∨ containsStr c.name.toLower "date" = true
            ∨ containsStr c.name.toLower "time" = true)
        ∧ 2 ≤ rd.rows.length ∧ rd.rows.length ≤ 50) := by
  have hnum := hasNumericColumnB_iff rd.columns
  have htime := hasTimeColumnB_iff rd.columns
  unfold determineWidgetType
  split_ifs with h1 h2 h3
  · exact iff_of_false (by decide) (fun h => absurd h.2.2.2.1 (by omega))
  · refine iff_of_true rfl ?_
    simp only [Bool.and_eq_true, decide_eq_true_eq] at h3
    obtain ⟨⟨⟨ht, hn⟩, hr1⟩, hr50⟩ := h3
    exact ⟨h2, hnum.mp hn, htime.mp ht, by omega, hr50⟩
  · refine iff_of_false (by decide) (fun h => h3 ?_)
    simp only [Bool.and_eq_true, decide_eq_true_eq]
    exact ⟨⟨⟨htime.mpr h.2.2.1, hnum.mpr h.2.1⟩, by omega⟩, h.2.2.2.2⟩
  · exact iff_of_false (by decide) (fun h => h2 h.1)

theorem dwt_table_iff (rd : RawData) :
    determineWidgetType rd = .table ↔
      ((1 < rd.rows.length ∨ 1 < rd.columns.length)
        ∧ ¬((∃ c ∈ rd.columns,
              c.type = "integer" ∨ c.type = "float" ∨ c.type = "number")
            ∧ (∃ c ∈ rd.columns, c.type = "date" ∨ c.type = "datetime"
                ∨ containsStr c.name.toLower "date" = true
                ∨ containsStr c.name.toLower "time" = true)
            ∧ 2 ≤ rd.rows.length ∧ rd.rows.length ≤ 50)) := by
  have hnum := hasNumericColumnB_iff rd.columns
  have htime := hasTimeColumnB_iff rd.columns
  unfold determineWidgetType
  split_ifs with h1 h2 h3
  · exact iff_of_false (by decide) (fun h => absurd h.1 (by omega))
  · refine iff_of_false (by decide) (fun h => h.2 ?_)
    simp only [Bool.and_eq_true, decide_eq_true_eq] at h3
    obtain ⟨⟨⟨ht, hn⟩, hr1⟩, hr50⟩ := h3
    exact ⟨hnum.mp hn, htime.mp ht, by omega, hr50⟩
  · refine iff_of_true rfl ⟨h2, fun hx => h3 ?_⟩
    simp only [Bool.and_eq_true, decide_eq_true_eq]
    exact ⟨⟨⟨htime.mpr hx.2.1, hnum.mpr hx.1⟩, by omega⟩, hx.2.2.2⟩
  · exact iff_of_false (by decide) (fun h => h2 h.1)

theorem dwt_text_iff (rd : RawData) :
    determineWidgetType rd = .text ↔
      (¬(1 < rd.rows.length ∨ 1 < rd.columns.length)
        ∧ ¬(rd.rows.length = 1 ∧ rd.columns.length = 1)) := by
  unfold determineWidgetType
  split_ifs with h1 h2 h3
  · exact iff_of_false (by decide) (fun h => h.2 h1)
  · exact iff_of_false (by decide) (fun h => h.1 h2)
  · exact iff_of_false (by decide) (fun h => h.1 h2)
  · exact iff_of_true rfl ⟨h2, h1⟩

/-! ## Claim theorems -/

/-- C1: `determineWidgetType` picks exactly one of the four presentation
modes: `metric` iff `raw_data` has exactly one row and one column; `chart`
iff there is more than one row or column, some column is numeric (type
integer/float/number), some column is time-like (type date/datetime, or a
name containing "date" or "time" case-insensitively), and the row count is
between 2 and 50 inclusive; `table` for every other input with more than one
row or column; `text` otherwise. -/
theorem c1_widget_type_modes (rd : RawData) :
    (determineWidgetType rd = .metric ↔
      rd.rows.length = 1 ∧ rd.columns.length = 1)
    ∧ (determineWidgetType rd = .chart ↔
      ((1 < rd.rows.length ∨ 1 < rd.columns.length)
        ∧ (∃ c ∈ rd.columns,
            c.type = "integer" ∨ c.type = "float" ∨ c.type = "number")
        ∧ (∃ c ∈ rd.columns, c.type = "date" ∨ c.type = "datetime"
            ∨ containsStr c.name.toLower "date" = true
            ∨ containsStr c.name.toLower "time" = true)
        ∧ 2 ≤ rd.rows.length ∧ rd.rows.length ≤ 50))
    ∧ (determineWidgetType rd = .table ↔
      ((1 < rd.rows.length ∨ 1 < rd.columns.length)
        ∧ ¬((∃ c ∈ rd.columns,
              c.type = "integer" ∨ c.type = "float" ∨ c.type = "number")
            ∧ (∃ c ∈ rd.columns, c.type = "date" ∨ c.type = "datetime"
                ∨ containsStr c.name.toLower "date" = true
                ∨ containsStr c.name.toLower "time" = true)
            ∧ 2 ≤ rd.rows.length ∧ rd.rows.length ≤ 50)))
    ∧ (determineWidgetType rd = .text ↔
      (¬(1 < rd.rows.length ∨ 1 < rd.columns.length)
        ∧ ¬(rd.rows.length = 1 ∧ rd.columns.length = 1))) :=
  ⟨dwt_metric_iff rd, dwt_chart_iff rd, dwt_table_iff rd, dwt_text_iff rd⟩

/-- C2: the MCP auto-selection scores the message against the three fixed
keyword lists and selects a server whose match count is maximal. -/
theorem c2_mcp_auto_selection_max (message : String) :
    mcpScore message .filesystem ≤ mcpScore message (autoSelectServer message)
    ∧ mcpScore message .database ≤ mcpScore message (autoSelectServer message)
    ∧ mcpScore message .webScraper ≤ mcpScore message (autoSelectServer message) := by
  unfold autoSelectServer
  dsimp only
  split_ifs with h1 h2 <;> refine ⟨?_, ?_, ?_⟩ <;> omega

/-- C5: after each mutating dashboard-service operation, the localStorage
entry under 'third-eye-dashboard-widgets' equals the JSON serialization of
the service's current widget list (each operation overwrites the stored
value with the full current list). -/
theorem c5_storage_matches_widgets (s : DashboardServiceState)
    (w : DashboardWidget) (wid : String) (u : WidgetUpdates) :
    (addWidget w s).storage.getItem widgetsStorageKey
      = some (encodeWidgets (addWidget w s).widgets)
    ∧ (removeWidget wid s).storage.getItem widgetsStorageKey
      = some (encodeWidgets (removeWidget wid s).widgets)
    ∧ (updateWidget wid u s).storage.getItem widgetsStorageKey
      = some (encodeWidgets (updateWidget wid u s).widgets)
    ∧ (clearAllWidgets s).storage.getItem widgetsStorageKey
      = some (encodeWidgets (clearAllWidgets s).widgets) := by
  refine ⟨?_, ?_, ?_, ?_⟩ <;>
    simp [addWidget, removeWidget, updateWidget, clearAllWidgets,
      saveWidgetsToStorage, Storage.getItem_setItem]

/-- C7: widget lifecycle is plain create/overwrite/delete: `addWidget`
appends the widget leaving existing ones unchanged; `removeWidget` removes
exactly the widgets with the given id, preserving the others in value and
order; `updateWidget` rewrites only the widgets whose id matches, via the
spread `{ ...w, ...updates }`, which replaces exactly the fields present in
`updates` and leaves every other field unchanged. -/
theorem c7_widget_lifecycle_frame (s : DashboardServiceState)
    (w : DashboardWidget) (wid : String) (u : WidgetUpdates) :
    (addWidget w s).widgets = s.widgets ++ [w]
    ∧ (removeWidget wid s).widgets.Sublist s.widgets
    ∧ (∀ v, v ∈ (removeWidget wid s).widgets ↔ v ∈ s.widgets ∧ v.id ≠ wid)
    ∧ (∀ i : ℕ, (updateWidget wid u s).widgets[i]?
        = (s.widgets[i]?).map (fun w0 =>
            if w0.id = wid then mergeWidget w0 u else w0))
    ∧ (∀ w0 : DashboardWidget,
        (u.id = none → (mergeWidget w0 u).id = w0.id)
        ∧ (u.type = none → (mergeWidget w0 u).type = w0.type)
        ∧ (u.title = none → (mergeWidget w0 u).title = w0.title)
        ∧ (u.description = none → (mergeWidget w0 u).description = w0.description)
        ∧ (u.data = none → (mergeWidget w0 u).data = w0.data)
        ∧ (u.metadata = none → (mergeWidget w0 u).metadata = w0.metadata)
        ∧ (u.position = none → (mergeWidget w0 u).position = w0.position)
        ∧ (∀ x, u.id = some x → (mergeWidget w0 u).id = x)
        ∧ (∀ x, u.type = some x → (mergeWidget w0 u).type = x)
        ∧ (∀ x, u.title = some x → (mergeWidget w0 u).title = x)
        ∧ (∀ x, u.description = some x → (mergeWidget w0 u).description = some x)
        ∧ (∀ x, u.data = some x → (mergeWidget w0 u).data = x)
        ∧ (∀ x, u.metadata = some x → (mergeWidget w0 u).metadata = some x)
        ∧ (∀ x, u.position = some x → (mergeWidget w0 u).position = some x)) := by
  refine ⟨rfl, ?_, ?_, ?_, ?_⟩
  · simp only [removeWidget, saveWidgetsToStorage]
    exact List.filter_sublist s.widgets
  · intro v
    simp [removeWidget, saveWidgetsToStorage, List.mem_filter, bne_iff_ne]
  · intro i
    simp only [updateWidget, saveWidgetsToStorage, List.getElem?_map]
    cases s.widgets[i]? with
    | none => rfl
    | some w0 =>
      by_cases h : w0.id = wid
      · simp [h]
      · simp [h]
  · intro w0
    refine ⟨?_, ?_, ?_, ?_, ?_, ?_, ?_, ?_, ?_, ?_, ?_, ?_, ?_, ?_⟩ <;>
      first
      | (intro h; simp [mergeWidget, h])
      | (intro x h; simp [mergeWidget, h])

theorem Analytics.ana_decodeEntry_encodeEntry (e : Analytics.QueryResponse) :
    Analytics.decodeEntry (Analytics.encodeEntry e) = some e := by
  obtain ⟨i, q, r, t, s, p⟩ := e
  cases s <;> cases p <;> rfl

theorem Analytics.ana_decodeList_encode (h : List Analytics.QueryResponse) :
    Analytics.decodeList (h.map Analytics.encodeEntry) = some h := by
  induction h with
  | nil => rfl
  | cons e t ih =>
    simp [Analytics.decodeList, Analytics.ana_decodeEntry_encodeEntry, ih]

theorem Analytics.ana_load_save (storage : Storage)
    (h h0 : List Analytics.QueryResponse) :
    Analytics.loadQueryHistory (Analytics.saveQueryHistory storage h) h0 = h := by
  unfold Analytics.loadQueryHistory Analytics.saveQueryHistory
  rw [Storage.getItem_setItem]
  simp [Analytics.ana_decodeList_encode]

theorem Conversations.conv_decodeEntry_encodeEntry (e : Conversations.ApiResponse) :
    Conversations.decodeEntry (Conversations.encodeEntry e) = some e := by
  obtain ⟨i, q, r, t, s, p⟩ := e
  cases s <;> cases p <;> rfl

theorem Conversations.conv_decodeList_encode (h : List Conversations.ApiResponse) :
    Conversations.decodeList (h.map Conversations.encodeEntry) = some h := by
  induction h with
  | nil => rfl
  | cons e t ih =>
    simp [Conversations.decodeList, Conversations.conv_decodeEntry_encodeEntry, ih]

theorem Conversations.conv_load_save (storage : Storage)
    (h h0 : List Conversations.ApiResponse) :
    Conversations.loadQueryHistory (Conversations.saveQueryHistory storage h) h0
      = h := by
  unfold Conversations.loadQueryHistory Conversations.saveQueryHistory
  rw [Storage.getItem_setItem]
  simp [Conversations.conv_decodeList_encode]

/-- C3: saving a query-history list with `saveQueryHistory` and loading it
back with `loadQueryHistory` restores the list entry by entry — same id,
query text, response value, status and processing time, with each timestamp
revived as a `Date` denoting the same instant — both for the analytics
history under 'thirdEyeAnalyticsHistory' and for the conversations history
under 'thirdEyeQueryHistory'.  (`h0` is the pre-existing in-memory history,
which a successful load replaces.) -/
theorem c3_history_roundtrip (storage : Storage)
    (ha h0a : List Analytics.QueryResponse)
    (hc h0c : List Conversations.ApiResponse) :
    Analytics.loadQueryHistory (Analytics.saveQueryHistory storage ha) h0a = ha
    ∧ Conversations.loadQueryHistory
        (Conversations.saveQueryHistory storage hc) h0c = hc :=
  ⟨Analytics.ana_load_save storage ha h0a, Conversations.conv_load_save storage hc h0c⟩

/-- C4: a failed request is caught at the call site and surfaced without
retry: the chatbot's `sendMessage` appends exactly one assistant chat message
containing the error detail (after the user message it had already
appended), the analytics `executeQuery` appends exactly one history entry
with status 'error' and sets it as the current response, and both reset
their in-flight flag to false afterwards. -/
theorem c4_error_surfaced_once (nowIso : String) (wNow : Int) (wRand : String)
    (st : Chatbot.State) (e : Chatbot.JsError) (t0 t1 : Int)
    (ast : Analytics.State) (err : String)
    (hcm : jsTrim st.currentMessage ≠ "") (hg : st.isGenerating = false)
    (hq : jsTrim ast.queryText ≠ "") :
    ((Chatbot.sendMessage nowIso wNow wRand st (.error e)).messages
        = st.messages
          ++ [{ role := .user, content := st.currentMessage,
                timestamp := nowIso, model := none },
              { role := .assistant,
                content := "Sorry, I encountered an error: "
                  ++ Chatbot.errorDetail e ++ ". Please try again.",
                timestamp := nowIso, model := none }]
      ∧ (Chatbot.sendMessage nowIso wNow wRand st (.error e)).isGenerating
        = false)
    ∧ ((∃ entry, (Analytics.executeQuery t0 t1 ast (.error err)).queryHistory
          = ast.queryHistory ++ [entry]
        ∧ entry.status = .error
        ∧ (Analytics.executeQuery t0 t1 ast (.error err)).currentResponse
          = some entry)
      ∧ (Analytics.executeQuery t0 t1 ast (.error err)).isProcessing
        = false) := by
  refine ⟨⟨?_, ?_⟩, ⟨?_, ?_⟩⟩
  · simp [Chatbot.sendMessage, hcm, hg]
  · simp [Chatbot.sendMessage, hcm, hg]
  · refine ⟨{ id := toString t0, query := ast.queryText,
              response := .obj [("error",
                  .str "Failed to process analytics query"),
                ("details", .str err)],
              timestamp := t1, status := .error,
              processingTime := none }, ?_, rfl, ?_⟩
    · simp [Analytics.executeQuery, hq]
    · simp [Analytics.executeQuery, hq]
  · simp [Analytics.executeQuery, hq]

/-- Witness for C4 at concrete inputs. -/
theorem c4_error_surfaced_once_witness :
    (Chatbot.sendMessage "ts" 0 "r" chatW (.error { detail := some "boom",
                                                    message := none })).isGenerating = false
    ∧ (Analytics.executeQuery 0 1 anaW (.error "x")).isProcessing = false :=
  ⟨(c4_error_surfaced_once "ts" 0 "r" chatW
      { detail := some "boom", message := none } 0 1 anaW "x"
      (by decide) rfl (by decide)).1.2,
   (c4_error_surfaced_once "ts" 0 "r" chatW
      { detail := some "boom", message := none } 0 1 anaW "x"
      (by decide) rfl (by decide)).2.2⟩

/-- C6 (amended): both submit buttons are disabled exactly when the trimmed
input is empty or a request is in flight; the chatbot's `sendMessage`
returns immediately without modifying state when its input is empty after
trimming or a request is in flight; the analytics `executeQuery` returns
immediately without modifying state when the query text is empty after
trimming — `executeQuery` itself does not check the in-flight flag (only the
disabled button prevents a call while a request is in flight). -/
theorem c6_submit_guard (st : Chatbot.State) (ast : Analytics.State)
    (nowIso wRand : String) (wNow t0 t1 : Int)
    (oc : Except Chatbot.JsError Chatbot.McpResponse)
    (oa : Except String JVal) :
    (Chatbot.sendBtnDisabled st = true ↔
      (jsTrim st.currentMessage = "" ∨ st.isGenerating = true))
    ∧ (Analytics.executeBtnDisabled ast = true ↔
      (jsTrim ast.queryText = "" ∨ ast.isProcessing = true))
    ∧ ((jsTrim st.currentMessage = "" ∨ st.isGenerating = true) →
        Chatbot.sendMessage nowIso wNow wRand st oc = st)
    ∧ (jsTrim ast.queryText = "" →
        Analytics.executeQuery t0 t1 ast oa = ast) := by
  refine ⟨?_, ?_, ?_, ?_⟩
  · simp [Chatbot.sendBtnDisabled]
  · simp [Analytics.executeBtnDisabled]
  · intro h
    rcases h with h | h <;> simp [Chatbot.sendMessage, h]
  · intro h
    simp [Analytics.executeQuery, h]

/-- Witness for the amended C6 at concrete inputs. -/
theorem c6_submit_guard_witness :
    Chatbot.sendMessage "ts" 0 "r" chatEmpty
        (.error { detail := none, message := none }) = chatEmpty
    ∧ Analytics.executeQuery 0 1 anaEmpty (.error "x") = anaEmpty :=
  ⟨(c6_submit_guard chatEmpty anaEmpty "ts" "r" 0 0 1
      (.error { detail := none, message := none }) (.error "x")).2.2.1
      (Or.inl (by decide)),
   (c6_submit_guard chatEmpty anaEmpty "ts" "r" 0 0 1
      (.error { detail := none, message := none }) (.error "x")).2.2.2
      (by decide)⟩

/-- Counterexample to C6 as stated: `anaBusy` has a request in flight
(`isProcessing = true`) and non-empty input, yet calling the submit handler
`executeQuery` does not return immediately — it modifies state, appending a
history entry: the analytics handler guards only on empty text, not on the
in-flight flag. -/
theorem c6_inflight_counterexample :
    anaBusy.isProcessing = true ∧ anaBusy.queryText = "x"
    ∧ (Analytics.executeQuery 0 1 anaBusy (.error "boom")).queryHistory.length
      = anaBusy.queryHistory.length + 1 :=
  ⟨rfl, rfl, rfl⟩

/-- C8: on the error path the persistent store is untouched — the
error-status entry is appended only to the in-memory history and
`saveQueryHistory` is not invoked (for both the analytics and conversations
pages) — and the error entry reaches localStorage only when a later
successful query persists the whole list. -/
theorem c8_error_not_persisted (t0 t1 t2 t3 : Int) (ast : Analytics.State)
    (err : String) (r : JVal) (cst : Conversations.State)
    (ha : jsTrim ast.queryText ≠ "") (hc : jsTrim cst.searchQuery ≠ "") :
    ((Analytics.executeQuery t0 t1 ast (.error err)).storage = ast.storage
      ∧ ∃ entry, (Analytics.executeQuery t0 t1 ast (.error err)).queryHistory
          = ast.queryHistory ++ [entry] ∧ entry.status = .error)
    ∧ ((Conversations.executeSearch t0 t1 cst (.error ())).storage
        = cst.storage
      ∧ ∃ entry, (Conversations.executeSearch t0 t1 cst
            (.error ())).queryHistory
          = cst.queryHistory ++ [entry] ∧ entry.status = .error)
    ∧ ((Analytics.executeQuery t2 t3
          (Analytics.executeQuery t0 t1 ast (.error err)) (.ok r)).storage.getItem
            Analytics.historyKey
        = some (.arr ((Analytics.executeQuery t2 t3
            (Analytics.executeQuery t0 t1 ast (.error err))
            (.ok r)).queryHistory.map Analytics.encodeEntry))
      ∧ ∃ entry ∈ (Analytics.executeQuery t2 t3
            (Analytics.executeQuery t0 t1 ast (.error err))
            (.ok r)).queryHistory, entry.status = .error) := by
  have hq2 : jsTrim (Analytics.executeQuery t0 t1 ast
      (.error err)).queryText ≠ "" := by
    simp only [Analytics.executeQuery, ha, if_neg]
    simpa using ha
  refine ⟨⟨?_, ?_⟩, ⟨?_, ?_⟩, ?_, ?_⟩
  · simp [Analytics.executeQuery, ha]
  · refine ⟨{ id := toString t0, query := ast.queryText,
              response := .obj [("error",
                  .str "Failed to process analytics query"),
                ("details", .str err)],
              timestamp := t1, status := .error,
              processingTime := none }, ?_, rfl⟩
    simp [Analytics.executeQuery, ha]
  · simp [Conversations.executeSearch, hc]
  · refine ⟨{ id := toString t0, query := cst.searchQuery,
              response := "Failed to process query. Please try again.",
              timestamp := t1, status := .error,
              processingTime := none }, ?_, rfl⟩
    simp [Conversations.executeSearch, hc]
  · simp only [Analytics.executeQuery, ha, if_neg, hq2]
    simp [Analytics.saveQueryHistory, Storage.getItem_setItem, ha]
  · refine ⟨{ id := toString t0, query := ast.queryText,
              response := .obj [("error",
                  .str "Failed to process analytics query"),
                ("details", .str err)],
              timestamp := t1, status := .error,
              processingTime := none }, ?_, rfl⟩
    simp [Analytics.executeQuery, ha]

/-- Witness for C8 at concrete inputs. -/
theorem c8_error_not_persisted_witness :
    (Analytics.executeQuery 0 1 anaW (.error "x")).storage = anaW.storage
    ∧ (Conversations.executeSearch 0 1 convW (.error ())).storage
      = convW.storage :=
  ⟨(c8_error_not_persisted 0 1 2 3 anaW "x" .null convW
      (by decide) (by decide)).1.1,
   (c8_error_not_persisted 0 1 2 3 anaW "x" .null convW
      (by decide) (by decide)).2.1.1⟩

theorem formatWidgetData_isSome (qr : QueryResult) (rd : RawData) :
    (formatWidgetData qr rd (determineWidgetType rd)).isSome = true := by
  match hwt : determineWidgetType rd with
  | .table => simp [formatWidgetData]
  | .text => simp [formatWidgetData]
  | .metric =>
    obtain ⟨hr, hcn⟩ := (dwt_metric_iff rd).mp hwt
    obtain ⟨row, hrow⟩ := List.length_eq_one.mp hr
    obtain ⟨col, hcol⟩ := List.length_eq_one.mp hcn
    simp [formatWidgetData, hrow, hcol]
  | .chart =>
    obtain ⟨hb, hn, ht, hr⟩ := (dwt_chart_iff rd).mp hwt
    obtain ⟨c0, hc0, hd0⟩ := hn
    have hne : rd.columns ≠ [] := List.ne_nil_of_mem hc0
    simp only [formatWidgetData, formatChartData]
    cases hf : rd.columns.find? (fun col =>
        col.type == "date" || col.type == "datetime"
          || col.type == "string") with
    | some lc => simp [Option.orElse, hf]
    | none =>
      cases hcols : rd.columns with
      | nil => exact absurd hcols hne
      | cons a as => simp [Option.orElse, hf, hcols]

theorem generate_no_crash (now : Int) (rand : String) (qr : QueryResult) :
    ∃ res, generateWidgetFromQueryResult now rand qr = .ok res := by
  unfold generateWidgetFromQueryResult
  by_cases hs : qr.success = false
  · exact ⟨none, by simp [hs]⟩
  · rw [if_neg hs]
    match hrd : qr.raw_data with
    | none => exact ⟨none, rfl⟩
    | some rd =>
      obtain ⟨d, hd⟩ := Option.isSome_iff_exists.mp
        (formatWidgetData_isSome qr rd)
      dsimp only
      rw [hd]
      exact ⟨_, rfl⟩

/-- C9: whenever `generateWidgetFromQueryResult` produces a widget of type
'metric', the query result's `raw_data` has exactly one row and exactly one
column (so the `columns[0]` / `rows[0]` accesses of the metric branch of
`formatWidgetData` are in bounds); and the generator never dereferences out
of bounds on any input on which it returns — it never reaches the
`Except.error` (crash) outcome. -/
theorem c9_generate_widget_safe (now : Int) (rand : String) (qr : QueryResult) :
    (∃ res, generateWidgetFromQueryResult now rand qr = .ok res)
    ∧ (∀ w, generateWidgetFromQueryResult now rand qr = .ok (some w) →
        w.type = .metric →
        ∃ rd, qr.raw_data = some rd
          ∧ rd.rows.length = 1 ∧ rd.columns.length = 1) := by
  refine ⟨generate_no_crash now rand qr, ?_⟩
  intro w hgen htype
  unfold generateWidgetFromQueryResult at hgen
  by_cases hs : qr.success = false
  · rw [if_pos hs] at hgen
    simp at hgen
  · rw [if_neg hs] at hgen
    rcases hrd : qr.raw_data with _ | rd <;> rw [hrd] at hgen <;>
      dsimp only at hgen
    · simp at hgen
    · cases hfd : formatWidgetData qr rd (determineWidgetType rd) with
      | none => rw [hfd] at hgen; simp at hgen
      | some d =>
        rw [hfd] at hgen
        simp only [Except.ok.injEq, Option.some.injEq] at hgen
        subst hgen
        dsimp only at htype
        exact ⟨rd, rfl, ((dwt_metric_iff rd).mp htype).1,
          ((dwt_metric_iff rd).mp htype).2⟩

/-- Witness for C9 at a concrete metric-shaped query result. -/
theorem c9_generate_widget_safe_witness :
    generateWidgetFromQueryResult 0 "r" qrMetric = .ok (some wMetric)
    ∧ ∃ rd, qrMetric.raw_data = some rd
        ∧ rd.rows.length = 1 ∧ rd.columns.length = 1 :=
  ⟨rfl, (c9_generate_widget_safe 0 "r" qrMetric).2 wMetric rfl rfl⟩

theorem foldl_max_init_le (l : List ℚ) (a : ℚ) : a ≤ l.foldl max a := by
  induction l generalizing a with
  | nil => exact le_refl a
  | cons b t ih =>
    rw [List.foldl_cons]
    exact le_trans (le_max_left a b) (ih (max a b))

theorem foldl_min_le_init (l : List ℚ) (a : ℚ) : l.foldl min a ≤ a := by
  induction l generalizing a with
  | nil => exact le_refl a
  | cons b t ih =>
    rw [List.foldl_cons]
    exact le_trans (ih (min a b)) (min_le_left a b)

theorem mem_le_foldl_max (l : List ℚ) :
    ∀ a x : ℚ, x ∈ l → x ≤ l.foldl max a := by
  induction l with
  | nil => intro a x h; cases h
  | cons b t ih =>
    intro a x h
    rw [List.foldl_cons]
    rcases List.mem_cons.mp h with rfl | h2
    · exact le_trans (le_max_right a x) (foldl_max_init_le t _)
    · exact ih _ _ h2

theorem foldl_min_le_mem (l : List ℚ) :
    ∀ a x : ℚ, x ∈ l → l.foldl min a ≤ x := by
  induction l with
  | nil => intro a x h; cases h
  | cons b t ih =>
    intro a x h
    rw [List.foldl_cons]
    rcases List.mem_cons.mp h with rfl | h2
    · exact le_trans (foldl_min_le_init t _) (min_le_right a x)
    · exact ih _ _ h2

/-- C10: for a chart widget's datasets with at least one value and any value
`v` drawn from them, `getBarHeight` returns a height in [10, 100] when the
maximum of all values differs from min(all values, 0), returns exactly 50
when they coincide, and in particular is never below 5 nor above 100. -/
theorem c10_bar_height_bounds (ds : List WidgetView.BarDataset) (v : ℚ)
    (hv : v ∈ WidgetView.allValues ds) :
    ∃ mx r, WidgetView.mathMax (WidgetView.allValues ds) = some mx
      ∧ WidgetView.getBarHeight v ds = some r
      ∧ (mx = WidgetView.mathMin0 (WidgetView.allValues ds) → r = 50)
      ∧ (mx ≠ WidgetView.mathMin0 (WidgetView.allValues ds) →
          10 ≤ r ∧ r ≤ 100)
      ∧ 5 ≤ r ∧ r ≤ 100 := by
  cases hav : WidgetView.allValues ds with
  | nil => rw [hav] at hv; cases hv
  | cons a t =>
    rw [hav] at hv
    have hvmx : v ≤ t.foldl max a := by
      rcases List.mem_cons.mp hv with rfl | h2
      · exact foldl_max_init_le t v
      · exact mem_le_foldl_max t a v h2
    have hmnv : (a :: t).foldl min 0 ≤ v := foldl_min_le_mem (a :: t) 0 v hv
    have hgbh : WidgetView.getBarHeight v ds =
        (if t.foldl max a = (a :: t).foldl min 0 then some 50
         else some (max 5 ((v - (a :: t).foldl min 0) /
           (t.foldl max a - (a :: t).foldl min 0) * 90 + 10))) := by
      unfold WidgetView.getBarHeight
      rw [hav]
      rfl
    set M := t.foldl max a with hM
    set m := (a :: t).foldl min 0 with hm
    have hmaxv : WidgetView.mathMax (a :: t) = some M := by rw [hM]; rfl
    have hmin : WidgetView.mathMin0 (a :: t) = m := by rw [hm]; rfl
    by_cases hc : M = m
    · refine ⟨M, 50, hmaxv, ?_, fun _ => rfl, fun hne => ?_, by norm_num,
        by norm_num⟩
      · rw [hgbh, if_pos hc]
      · rw [hmin] at hne
        exact (hne hc).elim
    · have hlt : m < M := lt_of_le_of_ne (le_trans hmnv hvmx) (Ne.symm hc)
      have hpos : 0 < M - m := by linarith
      have hq0 : 0 ≤ (v - m) / (M - m) :=
        div_nonneg (by linarith) (le_of_lt hpos)
      have hq1 : (v - m) / (M - m) ≤ 1 := (div_le_one hpos).mpr (by linarith)
      have h10 : 10 ≤ (v - m) / (M - m) * 90 + 10 := by nlinarith
      have h100 : (v - m) / (M - m) * 90 + 10 ≤ 100 := by nlinarith
      have hmaxeq : max 5 ((v - m) / (M - m) * 90 + 10)
          = (v - m) / (M - m) * 90 + 10 := max_eq_right (by linarith)
      refine ⟨M, max 5 ((v - m) / (M - m) * 90 + 10), hmaxv, ?_, ?_,
        fun _ => ⟨?_, ?_⟩, le_max_left 5 _, ?_⟩
      · rw [hgbh, if_neg hc]
      · intro he
        rw [hmin] at he
        exact (hc he).elim
      · rw [hmaxeq]; exact h10
      · rw [hmaxeq]; exact h100
      · rw [hmaxeq]; exact h100

/-- Witness for C10 at a concrete dataset. -/
theorem c10_bar_height_bounds_witness :
    ∃ r, WidgetView.getBarHeight 3 barDs = some r ∧ 5 ≤ r ∧ r ≤ 100 := by
  obtain ⟨mx, r, h1, h2, h3, h4, h5, h6⟩ :=
    c10_bar_height_bounds barDs 3 (by decide)
  exact ⟨r, h2, h5, h6⟩

/-- Witness for C7 at a concrete widget, update record and service state. -/
theorem c7_widget_lifecycle_frame_witness :
    (mergeWidget wA uA).title = "T" ∧ (mergeWidget wA uA).id = wA.id
    ∧ (addWidget wA svcA).widgets = svcA.widgets ++ [wA] :=
  ⟨((c7_widget_lifecycle_frame svcA wA "a" uA).2.2.2.2 wA).2.2.2.2.2.2.2.2.2.1
      "T" rfl,
   ((c7_widget_lifecycle_frame svcA wA "a" uA).2.2.2.2 wA).1 rfl,
   (c7_widget_lifecycle_frame svcA wA "a" uA).1⟩
